import Mathlib

/-!
# Verification of the Notary Recovery setup script

A shallow embedding of `scripts/setup.py`, the commitment-builder /
deployment script of the Giza (Notary Recovery) repository, together
with proofs of the specification's claims about it.

Modelling conventions:

* Python strings are represented as `List Nat` of Unicode code points
  (`codes` converts a Lean string literal).
* Python's `str.lower()` / `str.strip()` are modelled over the ASCII
  range (`lowerCode`, `pyStrip`); all configured answers are ASCII.
* The external `starkli` binary is an environment (`Starkli`): each
  subprocess invocation either succeeds with some output string or
  fails (`none`, modelling `subprocess.CalledProcessError`).
* `sys.exit(1)` and an uncaught exception are modelled by the
  `RunOutcome.exited` / `RunOutcome.crashed` outcomes of the script
  run, each carrying the list of files written before termination.
* SHA-256 (the silent fallback of `starkli_pedersen`) is implemented
  concretely and executably below.
-/

namespace NotaryRecovery

/-- Code points of a Lean string literal, used to write down the Python
string constants of the script. -/
def codes (s : String) : List Nat :=
  s.data.map Char.toNat

/-- One character of Python's `str.lower()`, restricted to ASCII:
`A`–`Z` (65–90) map to `a`–`z`, everything else is unchanged. -/
def lowerCode (c : Nat) : Nat :=
  if 65 ≤ c ∧ c ≤ 90 then c + 32 else c

/-- Python's `str.lower()` over code points (ASCII model). -/
def pyLower (s : List Nat) : List Nat :=
  s.map lowerCode

/-- The ASCII whitespace code points stripped by Python's `str.strip()`:
space, tab, linefeed, vertical tab, formfeed, carriage return. -/
def isSpaceCode (c : Nat) : Bool :=
  decide (c = 32 ∨ c = 9 ∨ c = 10 ∨ c = 11 ∨ c = 12 ∨ c = 13)

/-- Python's `str.strip()`: drop whitespace from the front, then from
the back. -/
def pyStrip (s : List Nat) : List Nat :=
  List.rdropWhile isSpaceCode (List.dropWhile isSpaceCode s)

/-- The normalization the script applies to the username and to every
answer before handing it to `starkli`: `text.lower().strip()`
(`setup.py` lines 69 and 80). -/
def pyNormalize (s : List Nat) : List Nat :=
  pyStrip (pyLower s)

/-! ## Properties of the canonicalizer -/

theorem lowerCode_idem (c : Nat) : lowerCode (lowerCode c) = lowerCode c := by
  unfold lowerCode
  split_ifs <;> omega

theorem isSpaceCode_lowerCode (c : Nat) :
    isSpaceCode (lowerCode c) = isSpaceCode c := by
  unfold lowerCode isSpaceCode
  split_ifs with h
  · rw [decide_eq_decide]
    omega
  · rfl

theorem pyLower_idem (s : List Nat) : pyLower (pyLower s) = pyLower s := by
  simp [pyLower, List.map_map, Function.comp, lowerCode_idem]

theorem isSpaceCode_comp_lowerCode : (isSpaceCode ∘ lowerCode) = isSpaceCode :=
  funext isSpaceCode_lowerCode

theorem dropWhile_map_lowerCode (s : List Nat) :
    List.dropWhile isSpaceCode (List.map lowerCode s)
      = List.map lowerCode (List.dropWhile isSpaceCode s) := by
  rw [List.dropWhile_map, isSpaceCode_comp_lowerCode]

theorem rdropWhile_map_lowerCode (s : List Nat) :
    List.rdropWhile isSpaceCode (List.map lowerCode s)
      = List.map lowerCode (List.rdropWhile isSpaceCode s) := by
  unfold List.rdropWhile
  rw [← List.map_reverse lowerCode s, dropWhile_map_lowerCode s.reverse,
    List.map_reverse]

theorem pyStrip_map_lowerCode (s : List Nat) :
    pyStrip (pyLower s) = pyLower (pyStrip s) := by
  unfold pyStrip pyLower
  rw [dropWhile_map_lowerCode, rdropWhile_map_lowerCode]

theorem dropWhile_eq_self_of_head (l : List Nat)
    (h : ∀ c t, l = c :: t → isSpaceCode c = false) :
    List.dropWhile isSpaceCode l = l := by
  cases l with
  | nil => rfl
  | cons c t => simp [List.dropWhile_cons, h c t rfl]

theorem dropWhile_head_false :
    ∀ (l : List Nat) c t, List.dropWhile isSpaceCode l = c :: t →
      isSpaceCode c = false := by
  intro l
  induction l with
  | nil => intro c t h; simp [List.dropWhile] at h
  | cons a l ih =>
    intro c t h
    by_cases ha : isSpaceCode a = true
    · rw [List.dropWhile_cons, if_pos ha] at h
      exact ih c t h
    · rw [List.dropWhile_cons, if_neg ha] at h
      obtain ⟨rfl, -⟩ := List.cons.inj h
      simpa using ha

theorem dropWhile_rdropWhile_self (s : List Nat) :
    List.dropWhile isSpaceCode
        (List.rdropWhile isSpaceCode (List.dropWhile isSpaceCode s))
      = List.rdropWhile isSpaceCode (List.dropWhile isSpaceCode s) := by
  cases hR : List.rdropWhile isSpaceCode (List.dropWhile isSpaceCode s) with
  | nil => rfl
  | cons c r =>
    obtain ⟨t, ht⟩ := List.rdropWhile_prefix
      (l := List.dropWhile isSpaceCode s) (p := isSpaceCode)
    rw [hR] at ht
    have hc : isSpaceCode c = false :=
      dropWhile_head_false s c (r ++ t) ht.symm
    apply dropWhile_eq_self_of_head
    intro c' t' h'
    obtain ⟨rfl, -⟩ := List.cons.inj h'.symm
    exact hc

theorem pyStrip_idem (s : List Nat) : pyStrip (pyStrip s) = pyStrip s := by
  unfold pyStrip
  rw [dropWhile_rdropWhile_self]
  exact List.rdropWhile_idempotent isSpaceCode _

theorem pyNormalize_idem (s : List Nat) :
    pyNormalize (pyNormalize s) = pyNormalize s := by
  unfold pyNormalize
  rw [← pyStrip_map_lowerCode, pyLower_idem, pyStrip_idem]

/-! ## Numeric and string helpers used by the script

`hex()`, `str()`, `int(_, 16)`, `str.encode()` and `int.from_bytes` from
Python, modelled executably. -/

/-- The code point of one lowercase digit of Python's number formatting:
`0`–`9` then `a`–`f`. -/
def digitCode (d : Nat) : Nat :=
  if d < 10 then 48 + d else 87 + d

/-- Digits of `n` in the given base, most significant first; fuel-based
structural recursion so it evaluates in the kernel. -/
def digitsF (base : Nat) : Nat → Nat → List Nat
  | 0, _ => []
  | f + 1, n =>
    if n < base then [digitCode n]
    else digitsF base f (n / base) ++ [digitCode (n % base)]

/-- Python's `str(n)` for a natural number. -/
def decStr (n : Nat) : List Nat :=
  digitsF 10 (n + 1) n

/-- Python's `hex(n)` for a natural number: `0x` followed by lowercase
hex digits (`hex(0) = "0x0"`). -/
def hexStr (n : Nat) : List Nat :=
  codes "0x" ++ digitsF 16 (n + 1) n

/-- Python's `int.from_bytes(bs, 'big')`. -/
def bytesToNat (bs : List Nat) : Nat :=
  bs.foldl (fun acc b => acc * 256 + b) 0

/-- UTF-8 encoding of one code point (Python `str.encode()`). -/
def utf8Char (c : Nat) : List Nat :=
  if c < 128 then [c]
  else if c < 2048 then [192 + c / 64, 128 + c % 64]
  else if c < 65536 then
    [224 + c / 4096, 128 + c / 64 % 64, 128 + c % 64]
  else
    [240 + c / 262144, 128 + c / 4096 % 64, 128 + c / 64 % 64,
      128 + c % 64]

/-- UTF-8 encoding of a string of code points (Python `str.encode()`). -/
def utf8Encode (s : List Nat) : List Nat :=
  (s.map utf8Char).flatten

/-- The value of one hex digit, as accepted by Python's `int(_, 16)`. -/
def hexVal (c : Nat) : Option Nat :=
  if 48 ≤ c ∧ c ≤ 57 then some (c - 48)
  else if 97 ≤ c ∧ c ≤ 102 then some (c - 87)
  else if 65 ≤ c ∧ c ≤ 70 then some (c - 55)
  else none

/-- Hex digit accumulator for `parseHex`. -/
def parseHexDigits : List Nat → Nat → Option Nat
  | [], acc => some acc
  | c :: rest, acc =>
    match hexVal c with
    | none => none
    | some v => parseHexDigits rest (acc * 16 + v)

/-- Python's `int(s, 16)`: an optional `0x`/`0X` prefix followed by at
least one hex digit; `none` models the `ValueError` raised otherwise. -/
def parseHex (s : List Nat) : Option Nat :=
  let t := if s.take 2 = codes "0x" ∨ s.take 2 = codes "0X"
    then s.drop 2 else s
  match t with
  | [] => none
  | _ => parseHexDigits t 0

/-! ## SHA-256

Python's `hashlib.sha256`, used by the script's silent fallback when the
`starkli parse pedersen(a, b)` subprocess fails (`setup.py` lines 36–41).
Implemented executably over `Nat` with explicit `% 2^32`. -/

/-- Addition modulo `2^32`. -/
def add32 (a b : Nat) : Nat :=
  (a + b) % 4294967296

/-- Right rotation of a 32-bit word, written arithmetically. -/
def rotr32 (x n : Nat) : Nat :=
  x / 2 ^ n + x % 2 ^ n * 2 ^ (32 - n)

/-- SHA-256 `Ch(e, f, g)`, in the equivalent bitwise-mux form
`g ⊕ (e ∧ (f ⊕ g))`. -/
def shaCh (e f g : Nat) : Nat :=
  g ^^^ (e &&& (f ^^^ g))

/-- SHA-256 `Maj(a, b, c)`, in the equivalent majority-vote form
`(a ∧ b) ∨ (c ∧ (a ∨ b))`. -/
def shaMaj (a b c : Nat) : Nat :=
  (a &&& b) ||| (c &&& (a ||| b))

/-- SHA-256 `Σ0`. -/
def bigSigma0 (x : Nat) : Nat :=
  rotr32 x 2 ^^^ rotr32 x 13 ^^^ rotr32 x 22

/-- SHA-256 `Σ1`. -/
def bigSigma1 (x : Nat) : Nat :=
  rotr32 x 6 ^^^ rotr32 x 11 ^^^ rotr32 x 25

/-- SHA-256 `σ0`. -/
def smallSigma0 (x : Nat) : Nat :=
  rotr32 x 7 ^^^ rotr32 x 18 ^^^ x / 8

/-- SHA-256 `σ1`. -/
def smallSigma1 (x : Nat) : Nat :=
  rotr32 x 17 ^^^ rotr32 x 19 ^^^ x / 1024

/-- The SHA-256 round constants, written in decimal. -/
def k256 : List Nat :=
  [1116352408, 1899447441, 3049323471, 3921009573,
   961987163, 1508970993, 2453635748, 2870763221,
   3624381080, 310598401, 607225278, 1426881987,
   1925078388, 2162078206, 2614888103, 3248222580,
   3835390401, 4022224774, 264347078, 604807628,
   770255983, 1249150122, 1555081692, 1996064986,
   2554220882, 2821834349, 2952996808, 3210313671,
   3336571891, 3584528711, 113926993, 338241895,
   666307205, 773529912, 1294757372, 1396182291,
   1695183700, 1986661051, 2177026350, 2456956037,
   2730485921, 2820302411, 3259730800, 3345764771,
   3516065817, 3600352804, 4094571909, 275423344,
   430227734, 506948616, 659060556, 883997877,
   958139571, 1322822218, 1537002063, 1747873779,
   1955562222, 2024104815, 2227730452, 2361852424,
   2428436474, 2756734187, 3204031479, 3329325298]

/-- The eight 32-bit words of a SHA-256 state. -/
structure Hash8 where
  a : Nat
  b : Nat
  c : Nat
  d : Nat
  e : Nat
  f : Nat
  g : Nat
  h : Nat
deriving DecidableEq

/-- The SHA-256 initial state, written in decimal. -/
def initH : Hash8 :=
  ⟨1779033703, 3144134277, 1013904242, 2773480762,
   1359893119, 2600822924, 528734635, 1541459225⟩

/-- One SHA-256 compression round. -/
def shaRound (st : Hash8) (kw w : Nat) : Hash8 :=
  let t1 := (st.h + bigSigma1 st.e + shaCh st.e st.f st.g + kw + w)
    % 4294967296
  let t2 := (bigSigma0 st.a + shaMaj st.a st.b st.c) % 4294967296
  { a := (t1 + t2) % 4294967296, b := st.a, c := st.b, d := st.c,
    e := (st.d + t1) % 4294967296, f := st.e, g := st.f, h := st.g }

/-- Big-endian byte encoding of `n` on `k` bytes. -/
def natToBytesBE : Nat → Nat → List Nat
  | 0, _ => []
  | k + 1, n => natToBytesBE k (n / 256) ++ [n % 256]

/-- The first 16 words of the message schedule of one 64-byte chunk. -/
def wordsOfChunk (c : List Nat) : List Nat :=
  (List.range 16).map fun i => bytesToNat ((c.drop (4 * i)).take 4)

/-- Extension of the message schedule by the given number of words. -/
def extendW : Nat → List Nat → List Nat
  | 0, w => w
  | n + 1, w =>
    let i := w.length
    let nw := add32 (add32 (w.getD (i - 16) 0) (smallSigma0 (w.getD (i - 15) 0)))
      (add32 (w.getD (i - 7) 0) (smallSigma1 (w.getD (i - 2) 0)))
    extendW n (w ++ [nw])

/-- SHA-256 compression of one 64-byte chunk into the running state. -/
def compressBlock (st : Hash8) (chunk : List Nat) : Hash8 :=
  let ws := extendW 48 (wordsOfChunk chunk)
  let r := (k256.zip ws).foldl (fun s p => shaRound s p.1 p.2) st
  { a := add32 st.a r.a, b := add32 st.b r.b, c := add32 st.c r.c,
    d := add32 st.d r.d, e := add32 st.e r.e, f := add32 st.f r.f,
    g := add32 st.g r.g, h := add32 st.h r.h }

/-- Split a byte list into 64-byte chunks (fuel-based so it evaluates
in the kernel). -/
def chunksF : Nat → List Nat → List (List Nat)
  | 0, _ => []
  | _ + 1, [] => []
  | f + 1, x :: xs =>
    ((x :: xs).take 64) :: chunksF f ((x :: xs).drop 64)

/-- SHA-256 padding of a message to a multiple of 64 bytes. -/
def shaPad (msg : List Nat) : List Nat :=
  msg ++ [128]
    ++ List.replicate ((64 - (msg.length + 9) % 64) % 64) 0
    ++ natToBytesBE 8 (8 * msg.length)

/-- `hashlib.sha256(msg).digest()`: the 32-byte SHA-256 digest of a byte
list. -/
def sha256 (msg : List Nat) : List Nat :=
  let padded := shaPad msg
  let fin := (chunksF padded.length padded).foldl compressBlock initH
  ([fin.a, fin.b, fin.c, fin.d, fin.e, fin.f, fin.g, fin.h].map
    (natToBytesBE 4)).flatten

/-- Sanity check of the SHA-256 implementation against the FIPS 180-2
test vector for `"abc"`. -/
theorem sha256_abc :
    sha256 (codes "abc")
      = [186, 120, 22, 191, 143, 1, 207, 234,
         65, 65, 64, 222, 93, 174, 34, 35,
         176, 3, 97, 163, 150, 23, 122, 156,
         180, 16, 255, 97, 242, 0, 21, 173] := by
  decide

/-! ## The `starkli` environment and the script's hashing helpers -/

/-- The external `starkli` binary, as observed by the script: each kind
of invocation either produces an output string or fails with
`subprocess.CalledProcessError` (`none`). -/
structure Starkli where
  toCairoString : List Nat → Option (List Nat)
  parsePedersen : List Nat → List Nat → Option (List Nat)

/-- `starkli_to_felt` (`setup.py` lines 11–23): runs
`starkli to-cairo-string <string>` and returns its output; on subprocess
failure the script prints an error and calls `sys.exit(1)` — the `none`
result is turned into `RunOutcome.exited` by `runSetup`. -/
def starkli_to_felt (env : Starkli) (s : List Nat) : Option (List Nat) :=
  env.toCairoString s

/-- The silent fallback of `starkli_pedersen` (`setup.py` lines 36–41):
`hex(int.from_bytes(sha256(f"\x7ba\x7d\x7bb\x7d".encode()).digest()[:31], 'big'))`. -/
def sha256Fallback (a b : List Nat) : List Nat :=
  hexStr (bytesToNat ((sha256 (utf8Encode (a ++ b))).take 31))

/-- `starkli_pedersen` (`setup.py` lines 25–41): runs
`starkli parse pedersen(a, b)`; on subprocess failure it silently
returns the truncated SHA-256 of the concatenated argument strings. -/
def starkli_pedersen (env : Starkli) (a b : List Nat) : List Nat :=
  match env.parsePedersen a b with
  | some r => r
  | none => sha256Fallback a b

/-- `USERNAME` (`setup.py` line 47). -/
def USERNAME : List Nat := codes "alice"

/-- `ANSWERS` (`setup.py` lines 48–52). -/
def ANSWERS : List (List Nat) :=
  [codes "Denis Guedj", codes "2012", codes "Finney"]

/-- `SONG_DURATION` (`setup.py` line 53). -/
def SONG_DURATION : Nat := 218

/-- One iteration of the answer-hashing loop (`setup.py` lines 78–86):
the commitment of answer text `a` at slot `i` is
`starkli_pedersen(starkli_to_felt(a.lower().strip()), str(i))`;
`none` when the `to-cairo-string` subprocess fails. -/
def commit (env : Starkli) (a : List Nat) (i : Nat) : Option (List Nat) :=
  (starkli_to_felt env (pyNormalize a)).map fun felt =>
    starkli_pedersen env felt (decStr i)

/-- The specification's fold, written from the spec's words for the
refinement claim: "a fixed left-associative pairwise hash,
`hash(hash(c0, c1), c2)`". -/
def foldSpec (h : List Nat → List Nat → List Nat)
    (c0 c1 c2 : List Nat) : List Nat :=
  h (h c0 c1) c2

/-- The encryption of the master key (`setup.py` line 101): bitwise XOR
of the master key with the combined hash. -/
def encrypt (k m : Nat) : Nat := k ^^^ m

/-- Modelled from the spec: the decryption operation is not in this
repository's sources (it lives in the deployed Cairo contract); per the
spec, "`decrypt` is the identical XOR operation (self-inverse)". -/
def decrypt (c m : Nat) : Nat := c ^^^ m

/-! ## The file artifacts the script writes -/

/-- The `frontend/config.js` content (`setup.py` lines 142–159), as a
function of the values the f-string interpolates. -/
def configContent (username usernameHash : List Nat) (duration : Nat)
    (a0 a1 a2 : List Nat) : List Nat :=
  codes "// Configuration file for frontend\n// Copy this to frontend/config.js\n\nconst CONFIG = \x7b\n  CONTRACT_ADDRESS: '0x...', // Update after deploy\n  USERNAME: '"
    ++ username
    ++ codes "',\n  USERNAME_HASH: '"
    ++ usernameHash
    ++ codes "',\n  SONG_DURATION: "
    ++ decStr duration
    ++ codes ",\n  EXPECTED_ANSWERS: [\n    '"
    ++ a0
    ++ codes "',\n    '"
    ++ a1
    ++ codes "',\n    '"
    ++ a2
    ++ codes "'\n  ],\n  // For testing only - remove in production!\n\x7d;\n\nexport default CONFIG;\n"

/-- The `scripts/test_recovery.sh` content (`setup.py` lines 190–213),
as a function of the values the f-string interpolates. -/
def recoveryContent (usernameHash h0 h1 h2 : List Nat) : List Nat :=
  codes "#!/bin/bash\n# Test recovery locally (dopo deploy)\n\nCONTRACT_ADDRESS=\"<YOUR_CONTRACT_ADDRESS>\"\n\necho \"Getting remaining attempts...\"\nstarkli call $CONTRACT_ADDRESS get_remaining_attempts --network sepolia\n\necho \"Starting recovery session...\"\nstarkli invoke $CONTRACT_ADDRESS start_recovery "
    ++ usernameHash
    ++ codes " --network sepolia\n\necho \"Waiting for confirmation... (press ENTER when ready)\"\nread\n\necho \"Attempting recovery...\"\nstarkli invoke $CONTRACT_ADDRESS attempt_recovery \\\n  "
    ++ usernameHash
    ++ codes " \\\n  "
    ++ h0
    ++ codes " \\\n  "
    ++ h1
    ++ codes " \\\n  "
    ++ h2
    ++ codes " \\\n  --network sepolia\n\necho \"Done! Check if key was recovered.\"\n"

/-! ## The whole script run -/

/-- The values a completed run of the script has produced. -/
structure SetupResult where
  usernameHash : List Nat
  answerFelts : List (List Nat)
  answerHashes : List (List Nat)
  combinedHash : List Nat
  encryptedKey : List Nat
  configJs : List Nat
  testMatches : List Bool
  filesWritten : List (String × List Nat)
deriving DecidableEq

/-- How a run of the script terminates: `exited` models `sys.exit(1)`
from `starkli_to_felt`, `crashed` an uncaught `ValueError` from
`int(combined_hash, 16)`; both carry the files written before
termination. -/
inductive RunOutcome where
  | exited (files : List (String × List Nat))
  | crashed (files : List (String × List Nat))
  | completed (r : SetupResult)
deriving DecidableEq

/-- The top-level run of `setup.py`, with the three-iteration answer
loop and the three-iteration self-test loop unrolled. The master key
(`MASTER_KEY`, a placeholder constant the user substitutes) is a
parameter, already in its `int(_, 16)` form. -/
def runSetup (env : Starkli) (masterKey : Nat) : RunOutcome :=
  match starkli_to_felt env (pyNormalize USERNAME) with
  | none => .exited []
  | some username_hash =>
    match starkli_to_felt env (pyNormalize (codes "Denis Guedj")) with
    | none => .exited []
    | some f0 =>
      match starkli_to_felt env (pyNormalize (codes "2012")) with
      | none => .exited []
      | some f1 =>
        match starkli_to_felt env (pyNormalize (codes "Finney")) with
        | none => .exited []
        | some f2 =>
          match parseHex (starkli_pedersen env
              (starkli_pedersen env (starkli_pedersen env f0 (decStr 0))
                (starkli_pedersen env f1 (decStr 1)))
              (starkli_pedersen env f2 (decStr 2))) with
          | none => .crashed []
          | some combined_int =>
            match starkli_to_felt env (codes "denis") with
            | none => .exited [("frontend/config.js",
                configContent USERNAME username_hash SONG_DURATION
                  (codes "Denis Guedj") (codes "2012") (codes "Finney"))]
            | some t0 =>
              match starkli_to_felt env (codes "2012") with
              | none => .exited [("frontend/config.js",
                  configContent USERNAME username_hash SONG_DURATION
                    (codes "Denis Guedj") (codes "2012") (codes "Finney"))]
              | some t1 =>
                match starkli_to_felt env (codes "finney") with
                | none => .exited [("frontend/config.js",
                    configContent USERNAME username_hash SONG_DURATION
                      (codes "Denis Guedj") (codes "2012") (codes "Finney"))]
                | some t2 =>
                  .completed {
                    usernameHash := username_hash,
                    answerFelts := [f0, f1, f2],
                    answerHashes :=
                      [starkli_pedersen env f0 (decStr 0),
                       starkli_pedersen env f1 (decStr 1),
                       starkli_pedersen env f2 (decStr 2)],
                    combinedHash := starkli_pedersen env
                      (starkli_pedersen env
                        (starkli_pedersen env f0 (decStr 0))
                        (starkli_pedersen env f1 (decStr 1)))
                      (starkli_pedersen env f2 (decStr 2)),
                    encryptedKey := hexStr (encrypt masterKey combined_int),
                    configJs := configContent USERNAME username_hash
                      SONG_DURATION (codes "Denis Guedj") (codes "2012")
                      (codes "Finney"),
                    testMatches :=
                      [starkli_pedersen env t0 (decStr 0)
                         == starkli_pedersen env f0 (decStr 0),
                       starkli_pedersen env t1 (decStr 1)
                         == starkli_pedersen env f1 (decStr 1),
                       starkli_pedersen env t2 (decStr 2)
                         == starkli_pedersen env f2 (decStr 2)],
                    filesWritten :=
                      [("frontend/config.js",
                        configContent USERNAME username_hash SONG_DURATION
                          (codes "Denis Guedj") (codes "2012")
                          (codes "Finney")),
                       ("scripts/test_recovery.sh",
                        recoveryContent username_hash
                          (starkli_pedersen env f0 (decStr 0))
                          (starkli_pedersen env f1 (decStr 1))
                          (starkli_pedersen env f2 (decStr 2)))] }

/-- The files a run has written, whatever its outcome. -/
def filesOf : RunOutcome → List (String × List Nat)
  | .exited fs => fs
  | .crashed fs => fs
  | .completed r => r.filesWritten

/-- Whether the run reached the end of the script. -/
def isCompletedRun : RunOutcome → Bool
  | .completed _ => true
  | _ => false

/-- The `frontend/config.js` content of a completed run (`[]` if the
run terminated early). -/
def configOf : RunOutcome → List Nat
  | .completed r => r.configJs
  | _ => []

/-- The combined hash of a completed run (`[]` if the run terminated
early). -/
def combinedOf : RunOutcome → List Nat
  | .completed r => r.combinedHash
  | _ => []

/-- The spec's fold applied to the three answer hashes of a completed
run (`[]` if the run terminated early). -/
def foldSpecOf (env : Starkli) : RunOutcome → List Nat
  | .completed r =>
    foldSpec (starkli_pedersen env) (r.answerHashes.getD 0 [])
      (r.answerHashes.getD 1 []) (r.answerHashes.getD 2 [])
  | _ => []

/-- The self-test verdicts of a completed run (`[]` if the run
terminated early). -/
def testMatchesOf : RunOutcome → List Bool
  | .completed r => r.testMatches
  | _ => []

/-! ## Concrete environments for witnesses and counterexamples -/

/-- The encoding the real `starkli to-cairo-string` performs: the hex
form of the big-endian integer of the string's UTF-8 bytes. Used only
to instantiate environments at concrete inputs. -/
def cairoFelt (s : List Nat) : List Nat :=
  hexStr (bytesToNat (utf8Encode s))

/-- An environment in which `starkli to-cairo-string` works and every
`starkli parse pedersen(..)` invocation fails, so the script silently
uses the SHA-256 fallback. -/
def envFallback : Starkli :=
  { toCairoString := fun s => some (cairoFelt s),
    parsePedersen := fun _ _ => none }

/-- An environment in which every `starkli` invocation fails. -/
def envAllFail : Starkli :=
  { toCairoString := fun _ => none,
    parsePedersen := fun _ _ => none }

/-- An environment whose pedersen output is an injective pairing (the
two arguments separated by a comma), convenient for discharging the
no-collision hypotheses at concrete inputs. -/
def envConcat : Starkli :=
  { toCairoString := fun s => some s,
    parsePedersen := fun a b => some (a ++ [44] ++ b) }

/-- An environment in which `starkli parse` succeeds with a fixed
output, to contrast with `envFallback` on the same inputs. -/
def envParseFixed : Starkli :=
  { toCairoString := fun s => some (cairoFelt s),
    parsePedersen := fun _ _ => some (codes "0x0") }

/-- An environment in which exactly one pedersen subprocess invocation
fails (the one hashing the first answer's felt), and every other
`starkli` call succeeds. -/
def envOneFail : Starkli :=
  { toCairoString := fun s => some (cairoFelt s),
    parsePedersen := fun a _ =>
      if a = cairoFelt (codes "denis guedj") then none
      else some (codes "0x1") }

/-- An environment whose pedersen output is an injective-enough pairing
rendered as a hex literal, so a run parses it back and completes. -/
def envHexPair : Starkli :=
  { toCairoString := fun s => some (cairoFelt s),
    parsePedersen := fun a b =>
      some (hexStr (bytesToNat (utf8Encode (a ++ [44] ++ b)))) }

/-- In `envConcat`, the pedersen stand-in is injective in its second
argument. -/
theorem envConcat_pedersen_inj_right (x s t : List Nat)
    (h : starkli_pedersen envConcat x s = starkli_pedersen envConcat x t) :
    s = t := by
  have h' : (x ++ [44]) ++ s = (x ++ [44]) ++ t := h
  exact List.append_cancel_left h'

/-- In `envConcat`, the pedersen stand-in is injective in its first
argument. -/
theorem envConcat_pedersen_inj_left (c x y : List Nat)
    (h : starkli_pedersen envConcat x c = starkli_pedersen envConcat y c) :
    x = y := by
  have h' : (x ++ [44]) ++ c = (y ++ [44]) ++ c := h
  have h2 : x ++ [44] = y ++ [44] := List.append_cancel_right h'
  exact List.append_cancel_right h2

/-- `str(i)` is injective on the three slot indices. -/
theorem decStr_inj3 (i j : Nat) (hi : i < 3) (hj : j < 3)
    (h : decStr i = decStr j) : i = j := by
  interval_cases i <;> interval_cases j <;> first | rfl | exact absurd h (by decide)

/-! ## The claims -/

/-- C8: normalization is idempotent: `normalize(normalize(x)) ==
normalize(x)` for every text `x`, where `normalize` lowercases and trims
surrounding whitespace (`text.lower().strip()`). -/
theorem claim_C8 (x : List Nat) :
    pyNormalize (pyNormalize x) = pyNormalize x :=
  pyNormalize_idem x

/-- C7: commitments are insensitive to letter case and surrounding
whitespace of the answer: `"Finney "` and `"FINNEY"` commit to the same
value as `"Finney"` at slot 2, in every `starkli` environment, because
the answer is lowercased and stripped before committing. -/
theorem claim_C7 (env : Starkli) :
    commit env (codes "Finney ") 2 = commit env (codes "Finney") 2 ∧
    commit env (codes "FINNEY") 2 = commit env (codes "Finney") 2 := by
  unfold commit
  rw [show pyNormalize (codes "Finney ") = pyNormalize (codes "Finney") from
      by decide,
    show pyNormalize (codes "FINNEY") = pyNormalize (codes "Finney") from
      by decide]
  exact ⟨rfl, rfl⟩

/-- C6: encryption is bitwise XOR with the combined secret and is
self-inverse: `decrypt(encrypt(k, m), m) == k` for every master key `k`
and mask `m` (`decrypt` modelled from the spec as the identical XOR). -/
theorem claim_C6 (k m : Nat) : decrypt (encrypt k m) m = k := by
  unfold decrypt encrypt
  rw [Nat.xor_assoc, Nat.xor_self, Nat.xor_zero]

/-- C5: commitments are domain-separated by slot index: as long as the
pedersen hash does not collide across salts (it is injective in its
second argument), the same answer text committed at two different slots
among `0, 1, 2` yields different commitments, because the salt hashed in
is `str(slot)`. -/
theorem claim_C5 (env : Starkli) (a : List Nat) (i j : Nat)
    (hi : i < 3) (hj : j < 3) (hij : i ≠ j)
    (hinj : ∀ x s t,
      starkli_pedersen env x s = starkli_pedersen env x t → s = t)
    (f : List Nat) (hf : starkli_to_felt env (pyNormalize a) = some f) :
    commit env a i ≠ commit env a j := by
  unfold commit
  rw [hf]
  intro hEq
  have h2 : starkli_pedersen env f (decStr i)
      = starkli_pedersen env f (decStr j) := Option.some.inj hEq
  exact hij (decStr_inj3 i j hi hj (hinj f (decStr i) (decStr j) h2))

/-- Witness for C5 at a concrete environment and input: the same answer
committed at slots 0 and 1 yields different commitments. -/
theorem claim_C5_witness :
    commit envConcat (codes "finney") 0 ≠ commit envConcat (codes "finney") 1 :=
  claim_C5 envConcat (codes "finney") 0 1 (by decide) (by decide) (by decide)
    envConcat_pedersen_inj_right (codes "finney") (by decide)

/-- C4: the fold of commitments is not commutative: whenever the hash
distinguishes the swapped first pair and does not collide under the
third commitment, `fold(c0, c1, c2) ≠ fold(c1, c0, c2)`. -/
theorem claim_C4 (env : Starkli) (c0 c1 c2 : List Nat)
    (hswap : starkli_pedersen env c0 c1 ≠ starkli_pedersen env c1 c0)
    (hinj : ∀ x y,
      starkli_pedersen env x c2 = starkli_pedersen env y c2 → x = y) :
    foldSpec (starkli_pedersen env) c0 c1 c2
      ≠ foldSpec (starkli_pedersen env) c1 c0 c2 := by
  unfold foldSpec
  intro h
  exact hswap (hinj _ _ h)

/-- Witness for C4 at a concrete environment and commitments. -/
theorem claim_C4_witness :
    foldSpec (starkli_pedersen envConcat)
        (codes "0x1") (codes "0x2") (codes "0x3")
      ≠ foldSpec (starkli_pedersen envConcat)
        (codes "0x2") (codes "0x1") (codes "0x3") :=
  claim_C4 envConcat (codes "0x1") (codes "0x2") (codes "0x3") (by decide)
    (envConcat_pedersen_inj_left (codes "0x3"))

set_option maxRecDepth 100000 in
/-- C9: when the `starkli parse pedersen(a, b)` subprocess fails, the
hash silently returns the truncated (31-byte) SHA-256 of the
concatenated argument strings instead of a Pedersen hash; consequently
the same inputs yield different values in different environments. -/
theorem claim_C9 :
    (∀ (env : Starkli) (a b : List Nat), env.parsePedersen a b = none →
        starkli_pedersen env a b = sha256Fallback a b) ∧
    starkli_pedersen envParseFixed (codes "0x1") (codes "0x2")
      ≠ starkli_pedersen envFallback (codes "0x1") (codes "0x2") := by
  constructor
  · intro env a b h
    unfold starkli_pedersen
    rw [h]
  · decide

/-- Witness for C9's conditional part at a concrete environment. -/
theorem claim_C9_witness :
    envFallback.parsePedersen (codes "0x1") (codes "0x2") = none ∧
    starkli_pedersen envFallback (codes "0x1") (codes "0x2")
      = sha256Fallback (codes "0x1") (codes "0x2") :=
  ⟨rfl, claim_C9.1 envFallback (codes "0x1") (codes "0x2") rfl⟩

/-- C3: in every completed run, the combined secret is the fixed
left-associative pairwise fold of the three answer commitments,
`hash(hash(c0, c1), c2)`, with the same two-argument hash used for the
commitments. -/
theorem claim_C3 (env : Starkli) (k : Nat) (r : SetupResult)
    (hrun : runSetup env k = RunOutcome.completed r) :
    r.combinedHash = foldSpec (starkli_pedersen env)
      (r.answerHashes.getD 0 []) (r.answerHashes.getD 1 [])
      (r.answerHashes.getD 2 []) := by
  unfold runSetup at hrun
  repeat' split at hrun
  all_goals first
    | exact RunOutcome.noConfusion hrun
    | (injection hrun with h; subst h; rfl)

/-- Witness for C3: the refinement checked on a completed concrete run. -/
theorem claim_C3_witness :
    combinedOf (runSetup envParseFixed 5)
      = foldSpecOf envParseFixed (runSetup envParseFixed 5) := by
  cases hrun : runSetup envParseFixed 5 with
  | exited fs => rfl
  | crashed fs => rfl
  | completed r =>
    simpa [combinedOf, foldSpecOf] using claim_C3 envParseFixed 5 r hrun

/-- C1 (amended): the `frontend/config.js` content written by the run is
independent of the master key — so it never carries the master key —
though it does carry the plaintext answers (see the counterexample). -/
theorem claim_C1_amended (env : Starkli) (k1 k2 : Nat) :
    configOf (runSetup env k1) = configOf (runSetup env k2) := by
  unfold runSetup
  repeat' split
  all_goals rfl

set_option maxRecDepth 1000000 in
/-- Counterexample to C1 as stated: a completed run whose
`frontend/config.js` content contains all three plaintext answers. -/
theorem claim_C1_counterexample :
    (codes "Denis Guedj" <:+: configOf (runSetup envParseFixed 0x1234567890abcdef)) ∧
    (codes "2012" <:+: configOf (runSetup envParseFixed 0x1234567890abcdef)) ∧
    (codes "Finney" <:+: configOf (runSetup envParseFixed 0x1234567890abcdef)) := by
  decide

/-- C2 (amended): a failure of the string-to-felt hashing step on the
username or any of the three answers aborts the run before any file is
written. -/
theorem claim_C2_amended (env : Starkli) (k : Nat)
    (h : starkli_to_felt env (pyNormalize USERNAME) = none
      ∨ starkli_to_felt env (pyNormalize (codes "Denis Guedj")) = none
      ∨ starkli_to_felt env (pyNormalize (codes "2012")) = none
      ∨ starkli_to_felt env (pyNormalize (codes "Finney")) = none) :
    runSetup env k = RunOutcome.exited [] := by
  rcases h with h | h | h | h
  · simp only [runSetup, h]
  · simp only [runSetup, h]
    cases starkli_to_felt env (pyNormalize USERNAME) <;> rfl
  · simp only [runSetup, h]
    cases starkli_to_felt env (pyNormalize USERNAME) <;> try rfl
    cases starkli_to_felt env (pyNormalize (codes "Denis Guedj")) <;> rfl
  · simp only [runSetup, h]
    cases starkli_to_felt env (pyNormalize USERNAME) <;> try rfl
    cases starkli_to_felt env (pyNormalize (codes "Denis Guedj")) <;> try rfl
    cases starkli_to_felt env (pyNormalize (codes "2012")) <;> rfl

/-- Witness for C2 (amended): in an environment where `starkli` fails,
the run exits without writing anything. -/
theorem claim_C2_amended_witness :
    runSetup envAllFail 0 = RunOutcome.exited [] :=
  claim_C2_amended envAllFail 0 (Or.inl rfl)

set_option maxRecDepth 1000000 in
/-- Counterexample to C2 as stated: in `envOneFail` the pedersen
subprocess fails on the very arguments the run hashes for the first
answer (an underlying hashing step fails), yet the run does not exit:
it completes and writes both output files. -/
theorem claim_C2_counterexample :
    envOneFail.parsePedersen (cairoFelt (codes "denis guedj")) (decStr 0)
        = none ∧
    isCompletedRun (runSetup envOneFail 0x1234567890abcdef) = true ∧
    (filesOf (runSetup envOneFail 0x1234567890abcdef)).length = 2 := by
  refine ⟨by decide, by decide, by decide⟩

/-- C10: in every completed run, the self-test's slot-1 and slot-2
checks report matches, while the slot-0 check compares the commitment
of the test answer `"denis"` against the stored commitment of
`"denis guedj"` and reports a mismatch whenever the hash distinguishes
the two encoded strings at salt `"0"`. -/
theorem claim_C10 (env : Starkli) (k : Nat) (r : SetupResult)
    (hrun : runSetup env k = RunOutcome.completed r)
    (fd fg : List Nat)
    (hd : starkli_to_felt env (codes "denis") = some fd)
    (hg : starkli_to_felt env (pyNormalize (codes "Denis Guedj")) = some fg)
    (hne : starkli_pedersen env fd (decStr 0)
      ≠ starkli_pedersen env fg (decStr 0)) :
    r.testMatches = [false, true, true] := by
  unfold runSetup at hrun
  rw [show pyNormalize (codes "2012") = codes "2012" from by decide,
    show pyNormalize (codes "Finney") = codes "finney" from by decide]
    at hrun
  repeat' split at hrun
  all_goals try exact RunOutcome.noConfusion hrun
  rename_i xa u hq0 xb f0 hq1 xc f1 hq2 xd f2 hq3 xe ci hp xf t0 hq4 xg t1
    hq5 xh tv2 hq6
  injection hrun with h
  subst h
  rw [hq1] at hg
  obtain rfl : f0 = fg := Option.some.inj hg
  rw [hq4] at hd
  obtain rfl : t0 = fd := Option.some.inj hd
  obtain rfl : t1 = f1 := (Option.some.inj hq5).symm
  obtain rfl : tv2 = f2 := (Option.some.inj hq6).symm
  simp only [List.cons.injEq, and_true]
  exact ⟨beq_eq_false_iff_ne.mpr hne, beq_self_eq_true _, beq_self_eq_true _⟩

set_option maxRecDepth 1000000 in
/-- Witness for C10: a completed concrete run whose self-test verdicts
are exactly `[mismatch, match, match]`. -/
theorem claim_C10_witness :
    testMatchesOf (runSetup envHexPair 0x1234567890abcdef)
      = [false, true, true] := by
  have hc : isCompletedRun (runSetup envHexPair 0x1234567890abcdef) = true := by
    decide
  cases hrun : runSetup envHexPair 0x1234567890abcdef with
  | exited fs => rw [hrun] at hc; simp [isCompletedRun] at hc
  | crashed fs => rw [hrun] at hc; simp [isCompletedRun] at hc
  | completed r =>
    simpa [testMatchesOf] using
      claim_C10 envHexPair 0x1234567890abcdef r hrun
        (cairoFelt (codes "denis")) (cairoFelt (codes "denis guedj"))
        rfl (by decide) (by decide)

end NotaryRecovery
